import Mathlib

/-!
Verification of the asynchronous task dispatch layer of the Israelgpt
repository: the Redis-backed task queue client (`src/taskqueue/__init__.py`),
the worker dispatch loop (`microservices/worker/main.py`) and the gateway
request path (`src/core/events.py`).

The Queue Store (Redis) is modelled as explicit state: a map from key to a
list of stored values plus a map from key to its expiry setting.  JSON wire
values are modelled structurally (an inductive `Json`); `json.dumps` followed
by `json.loads` is the identity on such values, so the wire layer carries
`Json` values directly.  JSON numbers are modelled as integers, which covers
every value this system serializes.  Python exceptions are modelled with
`Except`.
-/

/-- Structural JSON values.  Numbers are modelled as integers (the only
numbers this system puts on the wire).  Objects are association lists with
distinct keys, as produced by `json.loads`. -/
inductive Json where
  | null : Json
  | bool (b : Bool) : Json
  | num (n : Int) : Json
  | str (s : String) : Json
  | arr (elems : List Json) : Json
  | obj (fields : List (String × Json)) : Json

/-- First-match lookup in an object's field list (Python `dict` lookup;
keys are distinct in any dict, so first match is the match). -/
def lookupField : List (String × Json) → String → Option Json
  | [], _ => none
  | (k2, v) :: rest, k => if k2 = k then some v else lookupField rest k

/-- `d.get(k)` on a JSON object; `none` when the key is absent or the value
is not an object. -/
def Json.getField : Json → String → Option Json
  | .obj fields, k => lookupField fields k
  | _, _ => none

/-- Python truthiness of a JSON value (`bool(x)`). -/
def pyFalsy : Json → Bool
  | .null => true
  | .bool b => !b
  | .num n => n = 0
  | .str s => s = ""
  | .arr elems => elems.isEmpty
  | .obj fields => fields.isEmpty

/-- Python `x or y`. -/
def pyOr (a b : Json) : Json := if pyFalsy a then b else a

/-- A single-quote character, used by Python `repr` of strings. -/
def pySquote : String := String.singleton (Char.ofNat 39)

mutual
/-- Python `repr` of a JSON value (as produced by `json.loads`): `None`,
`True`/`False`, decimal integers, single-quoted strings (escaping inside
strings is not modelled; no claim depends on it), bracketed lists and
braced dicts. -/
def pyRepr : Json → String
  | .null => "None"
  | .bool true => "True"
  | .bool false => "False"
  | .num n => toString n
  | .str s => pySquote ++ s ++ pySquote
  | .arr elems => "[" ++ pyReprArr elems ++ "]"
  | .obj fields => "\x7b" ++ pyReprObj fields ++ "\x7d"

/-- Comma-separated `repr`s of list elements. -/
def pyReprArr : List Json → String
  | [] => ""
  | [x] => pyRepr x
  | x :: y :: rest => pyRepr x ++ ", " ++ pyReprArr (y :: rest)

/-- Comma-separated `key: value` `repr`s of dict entries. -/
def pyReprObj : List (String × Json) → String
  | [] => ""
  | [(k, v)] => pySquote ++ k ++ pySquote ++ ": " ++ pyRepr v
  | (k, v) :: p :: rest => pySquote ++ k ++ pySquote ++ ": " ++ pyRepr v ++ ", " ++ pyReprObj (p :: rest)
end

/-- Python `str` of a JSON value: identity on strings, `repr` otherwise. -/
def pyStr : Json → String
  | .str s => s
  | j => pyRepr j

/-- Python `s.lower()`: lowercase every character. -/
def pyLower (s : String) : String := ⟨s.data.map Char.toLower⟩

/-- Python exceptions raised by the queue layer. -/
inductive QErr where
  | keyError (key : String) : QErr
  | typeError (msg : String) : QErr
  | valueError (msg : String) : QErr
  | timeoutError (msg : String) : QErr

/-- Python `int(x)` on a JSON value: integers pass through, booleans map to
0/1, decimal strings parse (`ValueError` otherwise), anything else is a
`TypeError`. -/
def pyInt : Json → Except QErr Int
  | .num n => .ok n
  | .bool b => .ok (if b then 1 else 0)
  | .str s =>
    match s.toInt? with
    | some n => .ok n
    | none => .error (.valueError ("invalid literal for int: " ++ s))
  | _ => .error (.typeError "int() argument must be a string or a number")

/-- The Queue Store (Redis): each key holds a list of stored JSON values
(`rpush`/`blpop` operate on it) and an optional expiry setting (`expire`
writes it).  Expiry lapse itself is wall-clock behaviour and is not
modelled; the `ttls` map records the last expiry set on each key. -/
@[ext]
structure Store where
  lists : String → List Json
  ttls : String → Option Int

/-- The store with every key empty. -/
def Store.empty : Store := ⟨fun _ => [], fun _ => none⟩

/-- `rpush key value`: append to the tail of the list at `key`. -/
def Store.rpush (s : Store) (key : String) (v : Json) : Store :=
  ⟨fun k => if k = key then s.lists k ++ [v] else s.lists k, s.ttls⟩

/-- `expire key ttl`: set/refresh the expiry of `key`. -/
def Store.expire (s : Store) (key : String) (ttl : Int) : Store :=
  ⟨s.lists, fun k => if k = key then some ttl else s.ttls k⟩

/-- `blpop key timeout`: atomically remove and return the head of the list
at `key`; when the list is empty no item arrives within the timeout window
(no concurrent producer is being modelled at that moment) and the call
returns `none`. -/
def Store.blpop (s : Store) (key : String) : Option Json × Store :=
  match s.lists key with
  | [] => (none, s)
  | v :: rest => (some v, ⟨fun k => if k = key then rest else s.lists k, s.ttls⟩)

/-- A queued job, mirroring the `QueueTask` dataclass.  The Python source
annotates `job_id`/`job_type` as `str` and `payload` as `Dict`, but `pop`
fills them with whatever JSON the queue record held, so the fields are
modelled as JSON values; `result_ttl` is always passed through `int(...)`,
so it is an integer. -/
structure QueueTask where
  job_id : Json
  job_type : Json
  payload : Json
  requested_by : Json
  result_ttl : Int

/-- `json.dumps(task.__dict__)`: the serialized job record, with fields in
dataclass declaration order. -/
def taskToJson (t : QueueTask) : Json :=
  .obj [("job_id", t.job_id), ("job_type", t.job_type), ("payload", t.payload),
        ("requested_by", t.requested_by), ("result_ttl", .num t.result_ttl)]

/-- Deserialization performed inside `pop`: `data["job_id"]` and
`data["job_type"]` raise `KeyError` when absent, `payload` defaults to the
empty dict, `requested_by` defaults to `None`, and
`int(data.get("result_ttl", 120))` defaults to 120 and may raise. -/
def parseQueueTask : Json → Except QErr QueueTask
  | .obj fields =>
    match lookupField fields "job_id" with
    | none => .error (.keyError "job_id")
    | some jid =>
      match lookupField fields "job_type" with
      | none => .error (.keyError "job_type")
      | some jty =>
        match pyInt ((lookupField fields "result_ttl").getD (.num 120)) with
        | .error e => .error e
        | .ok ttl =>
          .ok ⟨jid, jty, (lookupField fields "payload").getD (.obj []),
               (lookupField fields "requested_by").getD .null, ttl⟩
  | _ => .error (.typeError "queue record is not a JSON object")

/-- The task queue client.  `resultPfx` is the source's `result_prefix`
constructor argument (renamed only for Lean lexical reasons). -/
structure RedisTaskQueue where
  queue_key : String
  resultPfx : String

/-- The client built from the default environment configuration
(`TASK_NAMESPACE = "guildest"`). -/
def defaultQueue : RedisTaskQueue :=
  ⟨"guildest:tasks", "guildest:results:"⟩

namespace RedisTaskQueue

/-- `_result_key`: the key a job's results live under,
`f"{self.result_prefix}{job_id}"`. -/
def result_key (q : RedisTaskQueue) (job_id : String) : String :=
  q.resultPfx ++ job_id

/-- `enqueue(job_type, payload, requested_by=..., result_ttl=...)`.  The
fresh UUID4 `job_id` the source draws is made an explicit parameter (the
source's only nondeterminism here).  Serializes the full record and appends
it to the tail of the queue list. -/
def enqueue (q : RedisTaskQueue) (s : Store) (job_id job_type : String)
    (payload : List (String × Json)) (requested_by : Json) (result_ttl : Int) :
    QueueTask × Store :=
  let task : QueueTask :=
    ⟨.str job_id, .str job_type, .obj payload, requested_by, result_ttl⟩
  (task, s.rpush q.queue_key (taskToJson task))

/-- `pop(timeout)`: blocking pop from the head of the queue list; `none`
(Python `None`) on timeout; deserialization errors propagate to the
caller. -/
def pop (q : RedisTaskQueue) (s : Store) :
    Except QErr (Option QueueTask) × Store :=
  match s.blpop q.queue_key with
  | (none, s2) => (.ok none, s2)
  | (some raw, s2) =>
    match parseQueueTask raw with
    | .ok t => (.ok (some t), s2)
    | .error e => (.error e, s2)

/-- `publish_result(job_id, result, ttl=...)`: append the result record to
the job's result key, then set/refresh that key's expiry. -/
def publish_result (q : RedisTaskQueue) (s : Store) (job_id : String)
    (result : Json) (ttl : Int) : Store :=
  let key := q.result_key job_id
  (s.rpush key result).expire key ttl

/-- `wait_for_result(job_id, timeout=...)`: blocking pop from the job's
result key; raises `asyncio.TimeoutError` when nothing arrives within the
window. -/
def wait_for_result (q : RedisTaskQueue) (s : Store) (job_id : String) :
    Except QErr Json × Store :=
  let key := q.result_key job_id
  match s.blpop key with
  | (none, s2) =>
    (.error (.timeoutError ("Timed out waiting for result for job " ++ job_id)), s2)
  | (some raw, s2) => (.ok raw, s2)

end RedisTaskQueue

/-- `d[k] = v` on a Python dict as an association list: overwrite in place
when the key exists, append otherwise. -/
def pySetItem (d : List (String × Json)) (k : String) (v : Json) :
    List (String × Json) :=
  if d.any (fun p => p.1 = k) then
    d.map (fun p => if p.1 = k then (k, v) else p)
  else d ++ [(k, v)]

/-- Python dict merge `\x7b**base, **extra\x7d`: entries of `extra` update
`base` left to right. -/
def pyDictUpdate (base extra : List (String × Json)) : List (String × Json) :=
  extra.foldl (fun d p => pySetItem d p.1 p.2) base

/-- A job handler as the worker sees it: a coroutine returning a result
dict or raising (the exception's string form). -/
def Handler := QueueTask → Except String (List (String × Json))

/-- The worker's `job_type → handler` table (`HANDLERS`, a Python dict
with string keys). -/
def HandlerTable := List (String × Handler)

/-- `HANDLERS.get(task.job_type)`: dict lookup, `None` for any key that is
not a registered string. -/
def lookupHandler (tbl : HandlerTable) : Json → Option Handler
  | .str s => List.lookup s tbl
  | _ => none

/-- `handle_safety_scan`: reads `payload.get("content") or ""`; empty
content short-circuits to `\x7b"verdict": None\x7d`; otherwise the verdict
comes from `classify_message_safety`, an external LLM-API call modelled as
the opaque parameter `classify` (spec §4.2 treats handlers' remote calls as
black boxes). -/
def handleSafetyScan (classify : Json → Except String Json) :
    QueueTask → Except String (List (String × Json)) := fun task =>
  match task.payload with
  | .obj fields =>
    let content := pyOr ((lookupField fields "content").getD .null) (.str "")
    if pyFalsy content then .ok [("verdict", .null)]
    else (classify content).map fun verdict => [("verdict", verdict)]
  | _ => .error "AttributeError: payload has no attribute get"

/-- `handle_llm_reply`: builds a prompt and context from the payload and
calls the external LLM services (`get_active_users_context`,
`generate_professional_reply`), modelled together as the opaque parameter
`gen`; the handler wraps the generated reply as `\x7b"reply": reply\x7d`. -/
def handleLlmReply (gen : QueueTask → Except String Json) :
    QueueTask → Except String (List (String × Json)) := fun task =>
  (gen task).map fun reply => [("reply", reply)]

/-- The worker's `HANDLERS` table, parametrized by the two external LLM
calls. -/
def HANDLERS (gen : QueueTask → Except String Json)
    (classify : Json → Except String Json) : HandlerTable :=
  [("llm_reply", handleLlmReply gen), ("safety_scan", handleSafetyScan classify)]

namespace RedisTaskQueue

/-- One iteration of `run_worker`'s infinite loop: pop (a timeout just
sleeps and continues); route by `job_type`; unknown type publishes an error
result naming the type; a handler result publishes
`\x7b"status": "ok", **(result or \x7b\x7d)\x7d`; a handler exception is
caught and published as `\x7b"status": "error", "error": str(exc)\x7d`.
Only an exception escaping `pop` itself (a malformed record) propagates out
of the loop.  `publish_result` receives `task.job_id` through an f-string,
hence `pyStr`. -/
def workerStep (q : RedisTaskQueue) (tbl : HandlerTable) (s : Store) :
    Except QErr Store :=
  match q.pop s with
  | (.error e, _) => .error e
  | (.ok none, s2) => .ok s2
  | (.ok (some task), s2) =>
    match lookupHandler tbl task.job_type with
    | none =>
      .ok (q.publish_result s2 (pyStr task.job_id)
        (.obj [("status", .str "error"),
               ("error", .str ("unknown job_type " ++ pySquote ++ pyStr task.job_type ++ pySquote))])
        task.result_ttl)
    | some h =>
      match h task with
      | .ok r =>
        .ok (q.publish_result s2 (pyStr task.job_id)
          (.obj (pyDictUpdate [("status", .str "ok")] r)) task.result_ttl)
      | .error exc =>
        .ok (q.publish_result s2 (pyStr task.job_id)
          (.obj [("status", .str "error"), ("error", .str exc)]) task.result_ttl)

/-- `run_worker` unrolled for a given number of loop iterations. -/
def workerRun (q : RedisTaskQueue) (tbl : HandlerTable) :
    Nat → Store → Except QErr Store
  | 0, s => .ok s
  | n + 1, s =>
    match q.workerStep tbl s with
    | .error e => .error e
    | .ok s2 => q.workerRun tbl n s2

end RedisTaskQueue

/-- An observable effect of a gateway request task: a log line (`print`),
the flagged-message report, or a Discord reply (`message.reply` /
`channel.send`). -/
inductive GatewayAction where
  | logLine (msg : String) : GatewayAction
  | sendFlagReport (verdict : Json) : GatewayAction
  | replyTo (text : Json) : GatewayAction
  | sendReply (text : Json) : GatewayAction

/-- Whether an action is user-visible (anything but a log line). -/
def GatewayAction.userVisible : GatewayAction → Bool
  | .logLine _ => false
  | _ => true

/-- A Queue Store connectivity fault injected into a gateway request task:
the store may be unreachable when `enqueue` runs or when `wait_for_result`
runs (the exception's string form is carried).  `ok` means connectivity is
fine; a result timeout then arises from the store state itself. -/
inductive ConnFault where
  | ok : ConnFault
  | atEnqueue (msg : String) : ConnFault
  | atWait (msg : String) : ConnFault

/-- `_queue_message_safety`'s handling of a verdict returned by
`wait_for_result`: return silently on `None`; otherwise flag the message
unless `str(verdict.get("verdict", "safe")).lower()` is exactly `"safe"`.
A non-dict verdict makes `.get` raise `AttributeError`, which the
enclosing `except Exception` turns into a log line. -/
def safetyResultActions (verdict : Json) : List GatewayAction :=
  match verdict with
  | .null => []
  | .obj fields =>
    let v := (lookupField fields "verdict").getD (.str "safe")
    if pyLower (pyStr v) ≠ "safe" then [.sendFlagReport verdict] else []
  | _ => [.logLine "Safety scan failed: AttributeError"]

/-- `_queue_message_safety(message)`: skip empty content; enqueue a
`safety_scan` job (`result_ttl=90`) and await its result for 30s; a
`TimeoutError` or any other exception is logged and swallowed — no retry,
no user-visible effect. -/
def queueMessageSafety (q : RedisTaskQueue) (fault : ConnFault) (s : Store)
    (job_id content : String) (guildId channelId authorId requestedBy : Json) :
    List GatewayAction × Store :=
  if content = "" then ([], s)
  else
    match fault with
    | .atEnqueue msg => ([.logLine ("Safety scan failed: " ++ msg)], s)
    | _ =>
      let payload : List (String × Json) :=
        [("content", .str content), ("guild_id", guildId),
         ("channel_id", channelId), ("author_id", authorId)]
      let (task, s1) := q.enqueue s job_id "safety_scan" payload requestedBy 90
      match fault with
      | .atWait msg => ([.logLine ("Safety scan failed: " ++ msg)], s1)
      | _ =>
        match q.wait_for_result s1 (pyStr task.job_id) with
        | (.error (.timeoutError _), s2) =>
          ([.logLine ("Safety scan timed out for job " ++ job_id)], s2)
        | (.error _, s2) => ([.logLine "Safety scan failed: internal error"], s2)
        | (.ok verdict, s2) => (safetyResultActions verdict, s2)

/-- `_queue_llm_reply`'s handling of a result returned by
`wait_for_result`: `reply_text = (result or \x7b\x7d).get("reply")`; a
falsy reply means no message is sent; otherwise reply to the triggering
message or send to the channel. -/
def llmResultActions (result : Json) (replyToMessage : Bool) :
    List GatewayAction :=
  match pyOr result (.obj []) with
  | .obj fields =>
    let replyText := (lookupField fields "reply").getD .null
    if pyFalsy replyText then []
    else if replyToMessage then [.replyTo replyText] else [.sendReply replyText]
  | _ => [.logLine "LLM reply failed: AttributeError"]

/-- `_queue_llm_reply(message, prompt, ...)`: skip empty prompts; enqueue
an `llm_reply` job (`result_ttl=180`) and await its result for 75s; a
`TimeoutError` or any other exception is logged and swallowed — no retry,
no user-visible effect. -/
def queueLlmReply (q : RedisTaskQueue) (fault : ConnFault) (s : Store)
    (job_id prompt : String) (username guildName guildId userId channelId
    channelContext activeUserIds requestedBy : Json) (replyToMessage : Bool) :
    List GatewayAction × Store :=
  if prompt = "" then ([], s)
  else
    match fault with
    | .atEnqueue msg => ([.logLine ("LLM reply failed: " ++ msg)], s)
    | _ =>
      let payload : List (String × Json) :=
        [("prompt", .str prompt), ("username", username),
         ("guild_name", guildName), ("guild_id", guildId),
         ("user_id", userId), ("channel_id", channelId),
         ("channel_context", channelContext), ("active_user_ids", activeUserIds)]
      let (task, s1) := q.enqueue s job_id "llm_reply" payload requestedBy 180
      match fault with
      | .atWait msg => ([.logLine ("LLM reply failed: " ++ msg)], s1)
      | _ =>
        match q.wait_for_result s1 (pyStr task.job_id) with
        | (.error (.timeoutError _), s2) =>
          ([.logLine ("LLM reply timed out for job " ++ job_id)], s2)
        | (.error _, s2) => ([.logLine "LLM reply failed: internal error"], s2)
        | (.ok result, s2) => (llmResultActions result replyToMessage, s2)

/-- `publish_result` called `n` times in a row with the same arguments. -/
def publishN (q : RedisTaskQueue) (job_id : String) (R : Json) (ttl : Int) :
    Nat → Store → Store
  | 0, s => s
  | n + 1, s => publishN q job_id R ttl n (q.publish_result s job_id R ttl)

/-- `n` concurrent `pop()` callers racing on the same store.  Each `blpop`
is a single atomic store operation, so any concurrent schedule of the
callers is some sequence of `pop` calls; the callers being symmetric, one
sequence represents them all. -/
def popRace (q : RedisTaskQueue) :
    Nat → Store → List (Except QErr (Option QueueTask)) × Store
  | 0, s => ([], s)
  | n + 1, s =>
    let (r, s2) := q.pop s
    let (rs, s3) := popRace q n s2
    (r :: rs, s3)

/-- The verdict the classification handler returns for a safe message. -/
def safeVerdict : Json := .obj [("verdict", .str "safe"), ("categories", .arr [])]

/-- A classifier (the external Llama-Guard call) that classifies every
message as safe. -/
def safeClassifier : Json → Except String Json := fun _ => .ok safeVerdict

/-- A stand-in for the external LLM reply generation (its behaviour is
irrelevant to the safety-scan path). -/
def stubGen : QueueTask → Except String Json := fun _ => .ok (.str "hello")

/-- The wire shape the worker publishes for a safe classification. -/
def safeWire : Json := .obj [("status", .str "ok"), ("verdict", safeVerdict)]

/-- Store state after the gateway enqueues a `safety_scan` job for message
content `"hello"` under job id `job-6`. -/
def c6Store0 : Store :=
  (defaultQueue.enqueue Store.empty "job-6" "safety_scan"
    [("content", .str "hello"), ("guild_id", .null), ("channel_id", .null),
     ("author_id", .null)] .null 90).2

/-- Store state after a worker with the real handler table (safe
classifier) processes that job. -/
def c6StoreAfterWorker : Store :=
  match defaultQueue.workerStep (HANDLERS stubGen safeClassifier) c6Store0 with
  | .ok s => s
  | .error _ => Store.empty

/-- A concrete handler table for exercising the dispatch loop: `boom`
always raises, `good` always succeeds. -/
def tblC : HandlerTable :=
  [("boom", fun _ => .error "boom failed"),
   ("good", fun _ => .ok [("reply", .str "done")])]

/-- A concrete job routed to the always-raising handler. -/
def t3a : QueueTask := ⟨.str "job-3a", .str "boom", .obj [], .null, 90⟩

/-- A concrete job routed to the succeeding handler. -/
def t3b : QueueTask := ⟨.str "job-3b", .str "good", .obj [], .null, 120⟩

/-- A queue holding the raising job then the succeeding job. -/
def s3 : Store :=
  (Store.empty.rpush defaultQueue.queue_key (taskToJson t3a)).rpush
    defaultQueue.queue_key (taskToJson t3b)

/-- A concrete job whose type is registered in no handler table. -/
def t4a : QueueTask := ⟨.str "job-4a", .str "mystery", .obj [], .null, 77⟩

/-- A queue holding the unknown-type job then the succeeding job. -/
def s4 : Store :=
  (Store.empty.rpush defaultQueue.queue_key (taskToJson t4a)).rpush
    defaultQueue.queue_key (taskToJson t3b)

/-! ## Basic lemmas about the store and the key scheme -/

theorem Store.rpush_lists_self (s : Store) (k : String) (v : Json) :
    (s.rpush k v).lists k = s.lists k ++ [v] := by
  simp [Store.rpush]

theorem Store.lists_rpush (s : Store) (k : String) (v : Json) (k2 : String) :
    (s.rpush k v).lists k2 = if k2 = k then s.lists k2 ++ [v] else s.lists k2 := rfl

theorem Store.ttls_rpush (s : Store) (k : String) (v : Json) :
    (s.rpush k v).ttls = s.ttls := rfl

theorem Store.lists_expire (s : Store) (k : String) (ttl : Int) :
    (s.expire k ttl).lists = s.lists := rfl

theorem Store.ttls_expire (s : Store) (k : String) (ttl : Int) (k2 : String) :
    (s.expire k ttl).ttls k2 = if k2 = k then some ttl else s.ttls k2 := rfl

/-- Left cancellation for string append, via the underlying character
lists. -/
theorem append_left_cancel_str (p x y : String) (h : p ++ x = p ++ y) : x = y := by
  have hd : (p ++ x).data = (p ++ y).data := by rw [h]
  rw [String.data_append, String.data_append] at hd
  have hxy : x.data = y.data := List.append_cancel_left hd
  exact congrArg String.mk hxy

/-- The result-key naming scheme is injective in the job id. -/
theorem result_key_inj (q : RedisTaskQueue) {x y : String}
    (h : q.result_key x = q.result_key y) : x = y :=
  append_left_cancel_str q.resultPfx x y h

/-- Under the default configuration no result key collides with the queue
list key (the result prefix alone is longer than the queue key). -/
theorem default_result_key_ne_queue (jid : String) :
    defaultQueue.result_key jid ≠ defaultQueue.queue_key := by
  intro h
  have hl := congrArg String.length h
  rw [RedisTaskQueue.result_key, String.length_append] at hl
  have h1 : (defaultQueue.resultPfx).length = 17 := rfl
  have h2 : (defaultQueue.queue_key).length = 14 := rfl
  omega

/-- The serialized job record deserializes back to the same task (the field
names are present and `result_ttl` survives `int(...)`). -/
theorem parse_taskToJson (t : QueueTask) : parseQueueTask (taskToJson t) = .ok t := rfl

/-- `pop` on a store whose queue list starts with a record that parses. -/
theorem pop_parse_ok (q : RedisTaskQueue) (s : Store) (raw : Json)
    (rest : List Json) (t : QueueTask) (hq : s.lists q.queue_key = raw :: rest)
    (hp : parseQueueTask raw = .ok t) :
    q.pop s = (.ok (some t),
      ⟨fun k => if k = q.queue_key then rest else s.lists k, s.ttls⟩) := by
  simp only [RedisTaskQueue.pop, Store.blpop, hq, hp]

/-- `pop` on a store whose queue list is empty times out with `None`. -/
theorem pop_empty (q : RedisTaskQueue) (s : Store)
    (hq : s.lists q.queue_key = []) : q.pop s = (.ok none, s) := by
  simp only [RedisTaskQueue.pop, Store.blpop, hq]

theorem publish_lists_self (q : RedisTaskQueue) (s : Store) (jid : String)
    (R : Json) (ttl : Int) :
    (q.publish_result s jid R ttl).lists (q.result_key jid) =
      s.lists (q.result_key jid) ++ [R] := by
  simp [RedisTaskQueue.publish_result, Store.lists_expire, Store.lists_rpush]

theorem publish_lists_ne (q : RedisTaskQueue) (s : Store) (jid : String)
    (R : Json) (ttl : Int) (k : String) (h : k ≠ q.result_key jid) :
    (q.publish_result s jid R ttl).lists k = s.lists k := by
  simp [RedisTaskQueue.publish_result, Store.lists_expire, Store.lists_rpush, h]

theorem publish_ttls_self (q : RedisTaskQueue) (s : Store) (jid : String)
    (R : Json) (ttl : Int) :
    (q.publish_result s jid R ttl).ttls (q.result_key jid) = some ttl := by
  simp [RedisTaskQueue.publish_result, Store.ttls_expire]

theorem publish_ttls_ne (q : RedisTaskQueue) (s : Store) (jid : String)
    (R : Json) (ttl : Int) (k : String) (h : k ≠ q.result_key jid) :
    (q.publish_result s jid R ttl).ttls k = s.ttls k := by
  simp [RedisTaskQueue.publish_result, Store.ttls_expire, Store.ttls_rpush, h]

/-! ## Claim theorems -/

/-- C1: for every job_type `T` and JSON payload mapping `P`, `enqueue(T, P)`
followed by `pop()` on the same otherwise-empty queue returns a Job whose
`job_type` equals `T` and whose `payload` equals `P` (structural equality
of the JSON round-tripped values); in fact the popped Job is exactly the
enqueued one. -/
theorem C1_enqueue_pop_roundtrip (q : RedisTaskQueue) (job_id job_type : String)
    (payload : List (String × Json)) (requested_by : Json) (result_ttl : Int)
    (s : Store) (hq : s.lists q.queue_key = []) :
    (q.pop (q.enqueue s job_id job_type payload requested_by result_ttl).2).1 =
      .ok (some (q.enqueue s job_id job_type payload requested_by result_ttl).1) ∧
    (q.enqueue s job_id job_type payload requested_by result_ttl).1.job_type =
      .str job_type ∧
    (q.enqueue s job_id job_type payload requested_by result_ttl).1.payload =
      .obj payload := by
  refine ⟨?_, rfl, rfl⟩
  have h1 : ((q.enqueue s job_id job_type payload requested_by result_ttl).2).lists
      q.queue_key =
      taskToJson (q.enqueue s job_id job_type payload requested_by result_ttl).1
        :: [] := by
    simp [RedisTaskQueue.enqueue, Store.lists_rpush, hq]
  rw [pop_parse_ok q _ _ [] _ h1 (parse_taskToJson _)]

theorem C1_enqueue_pop_roundtrip_witness :
    Store.empty.lists defaultQueue.queue_key = [] ∧
    ((defaultQueue.pop (defaultQueue.enqueue Store.empty "job-1" "safety_scan"
        [("content", Json.str "hello")] Json.null 90).2).1 =
      .ok (some (defaultQueue.enqueue Store.empty "job-1" "safety_scan"
        [("content", Json.str "hello")] Json.null 90).1) ∧
     (defaultQueue.enqueue Store.empty "job-1" "safety_scan"
        [("content", Json.str "hello")] Json.null 90).1.job_type =
       Json.str "safety_scan" ∧
     (defaultQueue.enqueue Store.empty "job-1" "safety_scan"
        [("content", Json.str "hello")] Json.null 90).1.payload =
       Json.obj [("content", Json.str "hello")]) :=
  ⟨rfl, C1_enqueue_pop_roundtrip defaultQueue "job-1" "safety_scan"
    [("content", Json.str "hello")] Json.null 90 Store.empty rfl⟩

/-- C2: result correlation.  Publishing a result under job id `X` leaves
the outcome of a waiter on any other job id `Y` unchanged (it is never
delivered X's data), and a waiter on `X` itself receives exactly the
published result — because the result key is derived injectively from the
job id (see `result_key_inj`). -/
theorem C2_result_correlation (q : RedisTaskQueue) (X Y : String) (R : Json)
    (ttl : Int) (s : Store) (hXY : X ≠ Y)
    (hX : s.lists (q.result_key X) = []) :
    (q.wait_for_result (q.publish_result s X R ttl) Y).1 =
      (q.wait_for_result s Y).1 ∧
    (q.wait_for_result (q.publish_result s X R ttl) X).1 = .ok R ∧
    (∀ x y : String, q.result_key x = q.result_key y → x = y) := by
  have hkey : q.result_key Y ≠ q.result_key X := fun h => hXY (result_key_inj q h).symm
  refine ⟨?_, ?_, fun x y h => result_key_inj q h⟩
  · have hl : (q.publish_result s X R ttl).lists (q.result_key Y) =
        s.lists (q.result_key Y) := publish_lists_ne q s X R ttl _ hkey
    simp only [RedisTaskQueue.wait_for_result, Store.blpop, hl]
    cases s.lists (q.result_key Y) <;> rfl
  · have hl : (q.publish_result s X R ttl).lists (q.result_key X) = [R] := by
      rw [publish_lists_self, hX]; rfl
    simp only [RedisTaskQueue.wait_for_result, Store.blpop, hl]

theorem C2_result_correlation_witness :
    ("job-x" ≠ "job-y") ∧
    Store.empty.lists (defaultQueue.result_key "job-x") = [] ∧
    ((defaultQueue.wait_for_result
        (defaultQueue.publish_result Store.empty "job-x" (Json.num 7) 300)
        "job-y").1 =
      (defaultQueue.wait_for_result Store.empty "job-y").1 ∧
     (defaultQueue.wait_for_result
        (defaultQueue.publish_result Store.empty "job-x" (Json.num 7) 300)
        "job-x").1 = .ok (Json.num 7) ∧
     (∀ x y : String, defaultQueue.result_key x = defaultQueue.result_key y → x = y)) :=
  ⟨by decide, rfl,
   C2_result_correlation defaultQueue "job-x" "job-y" (Json.num 7) 300
     Store.empty (by decide) rfl⟩

/-- C5: on an empty queue `pop` returns `None` (no error), while on an
empty result key `wait_for_result` raises `asyncio.TimeoutError` (never
returns `None`) — the one asymmetry between the two blocking reads. -/
theorem C5_timeout_asymmetry (q : RedisTaskQueue) (s : Store) (jid : String)
    (hq : s.lists q.queue_key = []) (hr : s.lists (q.result_key jid) = []) :
    q.pop s = (.ok none, s) ∧
    q.wait_for_result s jid =
      (.error (.timeoutError ("Timed out waiting for result for job " ++ jid)), s) := by
  refine ⟨pop_empty q s hq, ?_⟩
  simp only [RedisTaskQueue.wait_for_result, Store.blpop, hr]

theorem C5_timeout_asymmetry_witness :
    Store.empty.lists defaultQueue.queue_key = [] ∧
    Store.empty.lists (defaultQueue.result_key "job-5") = [] ∧
    (defaultQueue.pop Store.empty = (.ok none, Store.empty) ∧
     defaultQueue.wait_for_result Store.empty "job-5" =
       (.error (.timeoutError ("Timed out waiting for result for job " ++ "job-5")),
        Store.empty)) :=
  ⟨rfl, rfl, C5_timeout_asymmetry defaultQueue Store.empty "job-5" rfl rfl⟩

theorem publishN_lists (q : RedisTaskQueue) (jid : String) (R : Json) (ttl : Int) :
    ∀ (n : Nat) (s : Store),
      (publishN q jid R ttl n s).lists (q.result_key jid) =
        s.lists (q.result_key jid) ++ List.replicate n R
  | 0, s => by simp [publishN]
  | n + 1, s => by
    rw [publishN, publishN_lists q jid R ttl n _, publish_lists_self]
    simp [List.replicate_succ]

theorem publishN_ttls (q : RedisTaskQueue) (jid : String) (R : Json) (ttl : Int) :
    ∀ (n : Nat) (s : Store), 0 < n →
      (publishN q jid R ttl n s).ttls (q.result_key jid) = some ttl
  | n + 1, s, _ => by
    rw [publishN]
    cases n with
    | zero => rw [publishN]; exact publish_ttls_self q s jid R ttl
    | succ m =>
      exact publishN_ttls q jid R ttl (m + 1) _ (Nat.succ_pos m)

/-- C7: `publish_result` appends the serialized result to the job's result
key and then sets/refreshes that key's expiry to `ttl`; hence `n` publishes
to the same job id leave `n` queued result entries under that key, the
expiry having been refreshed by the last one. -/
theorem C7_publish_appends_then_expires (q : RedisTaskQueue) (s : Store)
    (jid : String) (R : Json) (ttl : Int) (n : Nat) (hn : 0 < n) :
    (q.publish_result s jid R ttl).lists (q.result_key jid) =
      s.lists (q.result_key jid) ++ [R] ∧
    (q.publish_result s jid R ttl).ttls (q.result_key jid) = some ttl ∧
    (publishN q jid R ttl n s).lists (q.result_key jid) =
      s.lists (q.result_key jid) ++ List.replicate n R ∧
    (publishN q jid R ttl n s).ttls (q.result_key jid) = some ttl :=
  ⟨publish_lists_self q s jid R ttl, publish_ttls_self q s jid R ttl,
   publishN_lists q jid R ttl n s, publishN_ttls q jid R ttl n s hn⟩

theorem C7_publish_appends_then_expires_witness :
    0 < 3 ∧
    ((defaultQueue.publish_result Store.empty "job-7" (Json.str "r") 300).lists
        (defaultQueue.result_key "job-7") =
      Store.empty.lists (defaultQueue.result_key "job-7") ++ [Json.str "r"] ∧
     (defaultQueue.publish_result Store.empty "job-7" (Json.str "r") 300).ttls
        (defaultQueue.result_key "job-7") = some 300 ∧
     (publishN defaultQueue "job-7" (Json.str "r") 300 3 Store.empty).lists
        (defaultQueue.result_key "job-7") =
      Store.empty.lists (defaultQueue.result_key "job-7") ++
        List.replicate 3 (Json.str "r") ∧
     (publishN defaultQueue "job-7" (Json.str "r") 300 3 Store.empty).ttls
        (defaultQueue.result_key "job-7") = some 300) :=
  ⟨by decide, C7_publish_appends_then_expires defaultQueue Store.empty "job-7"
    (Json.str "r") 300 3 (by decide)⟩

theorem popRace_empty (q : RedisTaskQueue) :
    ∀ (n : Nat) (s : Store), s.lists q.queue_key = [] →
      popRace q n s = (List.replicate n (.ok none), s)
  | 0, s, _ => by simp [popRace]
  | n + 1, s, h => by
    simp [popRace, pop_empty q s h, popRace_empty q n s h, List.replicate_succ]

/-- C8: with exactly one job in the queue and `n` concurrent `pop` callers
racing on it (each `blpop` being one atomic store operation, a concurrent
schedule is a sequence of pops), exactly one caller receives the job and
every other caller receives `None`; moreover `pop` is the only client
operation that removes anything from the queue list — a pop removes at most
the head, while `enqueue` and `publish_result` only ever append. -/
theorem C8_single_job_one_winner (q : RedisTaskQueue) (n : Nat) (rec : Json)
    (t : QueueTask) (s : Store) (hn : 0 < n)
    (hq : s.lists q.queue_key = [rec]) (hp : parseQueueTask rec = .ok t) :
    (popRace q n s).1 = .ok (some t) :: List.replicate (n - 1) (.ok none) ∧
    (popRace q n s).2.lists q.queue_key = [] ∧
    (∀ s2 : Store,
      ((q.pop s2).2).lists q.queue_key = (s2.lists q.queue_key).drop 1) ∧
    (∀ (s2 : Store) (jid2 jt2 : String) (p2 : List (String × Json))
        (rb2 : Json) (ttl2 : Int),
      ∃ l, ((q.enqueue s2 jid2 jt2 p2 rb2 ttl2).2).lists q.queue_key =
        s2.lists q.queue_key ++ l) ∧
    (∀ (s2 : Store) (jid2 : String) (R : Json) (ttl2 : Int),
      ∃ l, (q.publish_result s2 jid2 R ttl2).lists q.queue_key =
        s2.lists q.queue_key ++ l) := by
  obtain ⟨m, rfl⟩ : ∃ m, n = m + 1 := ⟨n - 1, (Nat.succ_pred_eq_of_pos hn).symm⟩
  have hpop := pop_parse_ok q s rec [] t hq hp
  have hs2 : (⟨fun k => if k = q.queue_key then [] else s.lists k, s.ttls⟩ :
      Store).lists q.queue_key = [] := by simp
  refine ⟨?_, ?_, ?_, ?_, ?_⟩
  · simp [popRace, hpop, popRace_empty q m _ hs2]
  · simp [popRace, hpop, popRace_empty q m _ hs2]
  · intro s2
    rcases h : s2.lists q.queue_key with _ | ⟨v, rest⟩
    · simp [RedisTaskQueue.pop, Store.blpop, h]
    · cases hp2 : parseQueueTask v <;>
        simp [RedisTaskQueue.pop, Store.blpop, h, hp2]
  · intro s2 jid2 jt2 p2 rb2 ttl2
    refine ⟨[taskToJson (q.enqueue s2 jid2 jt2 p2 rb2 ttl2).1], ?_⟩
    simp [RedisTaskQueue.enqueue, Store.lists_rpush]
  · intro s2 jid2 R ttl2
    by_cases hk : q.queue_key = q.result_key jid2
    · refine ⟨[R], ?_⟩
      rw [hk]
      exact publish_lists_self q s2 jid2 R ttl2
    · refine ⟨[], ?_⟩
      rw [List.append_nil]
      exact publish_lists_ne q s2 jid2 R ttl2 _ hk

theorem C8_single_job_one_winner_witness :
    0 < 3 ∧
    (Store.empty.rpush defaultQueue.queue_key
        (taskToJson ⟨.str "job-8", .str "safety_scan", .obj [], .null, 120⟩)).lists
        defaultQueue.queue_key =
      [taskToJson ⟨.str "job-8", .str "safety_scan", .obj [], .null, 120⟩] ∧
    parseQueueTask (taskToJson ⟨.str "job-8", .str "safety_scan", .obj [], .null, 120⟩) =
      .ok ⟨.str "job-8", .str "safety_scan", .obj [], .null, 120⟩ ∧
    (popRace defaultQueue 3
        (Store.empty.rpush defaultQueue.queue_key
          (taskToJson ⟨.str "job-8", .str "safety_scan", .obj [], .null, 120⟩))).1 =
      .ok (some ⟨.str "job-8", .str "safety_scan", .obj [], .null, 120⟩) ::
        List.replicate (3 - 1) (.ok none) :=
  ⟨by decide, rfl, rfl,
   (C8_single_job_one_winner defaultQueue 3
     (taskToJson ⟨.str "job-8", .str "safety_scan", .obj [], .null, 120⟩)
     ⟨.str "job-8", .str "safety_scan", .obj [], .null, 120⟩
     (Store.empty.rpush defaultQueue.queue_key
       (taskToJson ⟨.str "job-8", .str "safety_scan", .obj [], .null, 120⟩))
     (by decide) rfl rfl).1⟩

theorem workerStep_unknown (q : RedisTaskQueue) (tbl : HandlerTable) (s : Store)
    (t : QueueTask) (rest : List Json)
    (hq : s.lists q.queue_key = taskToJson t :: rest)
    (hl : lookupHandler tbl t.job_type = none) :
    q.workerStep tbl s = .ok (q.publish_result
      ⟨fun k => if k = q.queue_key then rest else s.lists k, s.ttls⟩
      (pyStr t.job_id)
      (.obj [("status", .str "error"),
             ("error", .str ("unknown job_type " ++ pySquote ++ pyStr t.job_type ++ pySquote))])
      t.result_ttl) := by
  simp only [RedisTaskQueue.workerStep,
    pop_parse_ok q s (taskToJson t) rest t hq (parse_taskToJson t), hl]

theorem workerStep_handler_ok (q : RedisTaskQueue) (tbl : HandlerTable)
    (s : Store) (t : QueueTask) (rest : List Json) (h : Handler)
    (r : List (String × Json))
    (hq : s.lists q.queue_key = taskToJson t :: rest)
    (hl : lookupHandler tbl t.job_type = some h) (hr : h t = .ok r) :
    q.workerStep tbl s = .ok (q.publish_result
      ⟨fun k => if k = q.queue_key then rest else s.lists k, s.ttls⟩
      (pyStr t.job_id)
      (.obj (pyDictUpdate [("status", .str "ok")] r))
      t.result_ttl) := by
  simp only [RedisTaskQueue.workerStep,
    pop_parse_ok q s (taskToJson t) rest t hq (parse_taskToJson t), hl, hr]

theorem workerStep_handler_raises (q : RedisTaskQueue) (tbl : HandlerTable)
    (s : Store) (t : QueueTask) (rest : List Json) (h : Handler) (m : String)
    (hq : s.lists q.queue_key = taskToJson t :: rest)
    (hl : lookupHandler tbl t.job_type = some h) (hr : h t = .error m) :
    q.workerStep tbl s = .ok (q.publish_result
      ⟨fun k => if k = q.queue_key then rest else s.lists k, s.ttls⟩
      (pyStr t.job_id)
      (.obj [("status", .str "error"), ("error", .str m)])
      t.result_ttl) := by
  simp only [RedisTaskQueue.workerStep,
    pop_parse_ok q s (taskToJson t) rest t hq (parse_taskToJson t), hl, hr]

theorem workerRun_step_ok (q : RedisTaskQueue) (tbl : HandlerTable) (n : Nat)
    (s s2 : Store) (h : q.workerStep tbl s = .ok s2) :
    q.workerRun tbl (n + 1) s = q.workerRun tbl n s2 := by
  have e : q.workerRun tbl (n + 1) s =
      match q.workerStep tbl s with
      | .error e => .error e
      | .ok s3 => q.workerRun tbl n s3 := rfl
  rw [e, h]

/-- C3: handler exceptions are contained.  With two well-formed jobs queued,
the first routed to a handler that raises and the second to one that
succeeds, two iterations of the dispatch loop run to completion: the first
job's id receives `\x7bstatus: "error", error: str(exc)\x7d` with expiry
set to its `result_ttl`, and the second job is still processed and its
result published — the first handler's failure did not terminate the
loop. -/
theorem C3_handler_exception_contained
    (tbl : HandlerTable) (t1 t2 : QueueTask) (id1 id2 : String)
    (h1 h2 : Handler) (m : String) (r2 : List (String × Json)) (s : Store)
    (hid1 : t1.job_id = .str id1) (hid2 : t2.job_id = .str id2)
    (hne : id1 ≠ id2)
    (hq : s.lists defaultQueue.queue_key = [taskToJson t1, taskToJson t2])
    (hl1 : lookupHandler tbl t1.job_type = some h1) (hraise : h1 t1 = .error m)
    (hl2 : lookupHandler tbl t2.job_type = some h2) (hok : h2 t2 = .ok r2)
    (hr1 : s.lists (defaultQueue.result_key id1) = [])
    (hr2 : s.lists (defaultQueue.result_key id2) = []) :
    ∃ s2, defaultQueue.workerRun tbl 2 s = .ok s2 ∧
      s2.lists (defaultQueue.result_key id1) =
        [.obj [("status", .str "error"), ("error", .str m)]] ∧
      s2.ttls (defaultQueue.result_key id1) = some t1.result_ttl ∧
      s2.lists (defaultQueue.result_key id2) =
        [.obj (pyDictUpdate [("status", .str "ok")] r2)] := by
  have hk1q : defaultQueue.result_key id1 ≠ defaultQueue.queue_key :=
    default_result_key_ne_queue id1
  have hk2q : defaultQueue.result_key id2 ≠ defaultQueue.queue_key :=
    default_result_key_ne_queue id2
  have hk12 : defaultQueue.result_key id1 ≠ defaultQueue.result_key id2 :=
    fun h => hne (result_key_inj _ h)
  have hstep1 := workerStep_handler_raises defaultQueue tbl s t1 [taskToJson t2]
    h1 m hq hl1 hraise
  rw [hid1] at hstep1
  simp only [pyStr] at hstep1
  have hAq : (defaultQueue.publish_result
      ⟨fun k => if k = defaultQueue.queue_key then [taskToJson t2] else s.lists k, s.ttls⟩
      id1 (.obj [("status", .str "error"), ("error", .str m)])
      t1.result_ttl).lists defaultQueue.queue_key = taskToJson t2 :: [] := by
    rw [publish_lists_ne _ _ _ _ _ _ (Ne.symm hk1q)]
    simp
  have hstep2 := workerStep_handler_ok defaultQueue tbl _ t2 [] h2 r2 hAq hl2 hok
  rw [hid2] at hstep2
  simp only [pyStr] at hstep2
  refine ⟨_, (workerRun_step_ok _ tbl 1 _ _ hstep1).trans
    ((workerRun_step_ok _ tbl 0 _ _ hstep2).trans rfl), ?_, ?_, ?_⟩
  · simp [RedisTaskQueue.publish_result, Store.rpush, Store.expire,
      hk1q, hk2q, hk12, Ne.symm hk12, hr1, hr2]
  · simp [RedisTaskQueue.publish_result, Store.rpush, Store.expire,
      hk1q, hk2q, hk12, Ne.symm hk12, hr1, hr2]
  · simp [RedisTaskQueue.publish_result, Store.rpush, Store.expire,
      hk1q, hk2q, hk12, Ne.symm hk12, hr1, hr2]

theorem C3_handler_exception_contained_witness :
    t3a.job_id = .str "job-3a" ∧
    t3b.job_id = .str "job-3b" ∧
    ("job-3a" : String) ≠ "job-3b" ∧
    s3.lists defaultQueue.queue_key = [taskToJson t3a, taskToJson t3b] ∧
    lookupHandler tblC t3a.job_type = some (fun _ => .error "boom failed") ∧
    (fun (_ : QueueTask) => (.error "boom failed" : Except String (List (String × Json)))) t3a = .error "boom failed" ∧
    lookupHandler tblC t3b.job_type = some (fun _ => .ok [("reply", .str "done")]) ∧
    (fun (_ : QueueTask) => (.ok [("reply", .str "done")] : Except String (List (String × Json)))) t3b = .ok [("reply", .str "done")] ∧
    s3.lists (defaultQueue.result_key "job-3a") = [] ∧
    s3.lists (defaultQueue.result_key "job-3b") = [] ∧
    (∃ s2, defaultQueue.workerRun tblC 2 s3 = .ok s2 ∧
      s2.lists (defaultQueue.result_key "job-3a") =
        [.obj [("status", .str "error"), ("error", .str "boom failed")]] ∧
      s2.ttls (defaultQueue.result_key "job-3a") = some t3a.result_ttl ∧
      s2.lists (defaultQueue.result_key "job-3b") =
        [.obj (pyDictUpdate [("status", .str "ok")] [("reply", .str "done")])]) :=
  ⟨rfl, rfl, by decide, rfl, rfl, rfl, rfl, rfl, rfl, rfl,
   C3_handler_exception_contained tblC t3a t3b "job-3a" "job-3b"
     (fun _ => .error "boom failed") (fun _ => .ok [("reply", .str "done")])
     "boom failed" [("reply", .str "done")] s3
     rfl rfl (by decide) rfl rfl rfl rfl rfl rfl rfl⟩

/-- C4: a popped job whose `job_type` is registered in no handler table
immediately gets `\x7bstatus: "error", error: "unknown job_type
'<type>'"\x7d` published under its id (with its `result_ttl`), no handler
runs (the published value does not depend on any handler in the table),
nothing is raised, and the loop proceeds: the next queued job is processed
normally on the following iteration. -/
theorem C4_unknown_job_type
    (tbl : HandlerTable) (T : String) (t1 t2 : QueueTask) (id1 id2 : String)
    (h2 : Handler) (r2 : List (String × Json)) (s : Store)
    (hid1 : t1.job_id = .str id1) (hty1 : t1.job_type = .str T)
    (hid2 : t2.job_id = .str id2) (hne : id1 ≠ id2)
    (hT : List.lookup T tbl = none)
    (hq : s.lists defaultQueue.queue_key = [taskToJson t1, taskToJson t2])
    (hl2 : lookupHandler tbl t2.job_type = some h2) (hok : h2 t2 = .ok r2)
    (hr1 : s.lists (defaultQueue.result_key id1) = [])
    (hr2 : s.lists (defaultQueue.result_key id2) = []) :
    ∃ s2, defaultQueue.workerRun tbl 2 s = .ok s2 ∧
      s2.lists (defaultQueue.result_key id1) =
        [.obj [("status", .str "error"),
               ("error", .str ("unknown job_type " ++ pySquote ++ T ++ pySquote))]] ∧
      s2.ttls (defaultQueue.result_key id1) = some t1.result_ttl ∧
      s2.lists (defaultQueue.result_key id2) =
        [.obj (pyDictUpdate [("status", .str "ok")] r2)] := by
  have hk1q : defaultQueue.result_key id1 ≠ defaultQueue.queue_key :=
    default_result_key_ne_queue id1
  have hk2q : defaultQueue.result_key id2 ≠ defaultQueue.queue_key :=
    default_result_key_ne_queue id2
  have hk12 : defaultQueue.result_key id1 ≠ defaultQueue.result_key id2 :=
    fun h => hne (result_key_inj _ h)
  have hl1 : lookupHandler tbl t1.job_type = none := by
    rw [hty1]
    exact hT
  have hstep1 := workerStep_unknown defaultQueue tbl s t1 [taskToJson t2] hq hl1
  rw [hid1, hty1] at hstep1
  simp only [pyStr] at hstep1
  have hAq : (defaultQueue.publish_result
      ⟨fun k => if k = defaultQueue.queue_key then [taskToJson t2] else s.lists k, s.ttls⟩
      id1 (.obj [("status", .str "error"),
                 ("error", .str ("unknown job_type " ++ pySquote ++ T ++ pySquote))])
      t1.result_ttl).lists defaultQueue.queue_key = taskToJson t2 :: [] := by
    rw [publish_lists_ne _ _ _ _ _ _ (Ne.symm hk1q)]
    simp
  have hstep2 := workerStep_handler_ok defaultQueue tbl _ t2 [] h2 r2 hAq hl2 hok
  rw [hid2] at hstep2
  simp only [pyStr] at hstep2
  refine ⟨_, (workerRun_step_ok _ tbl 1 _ _ hstep1).trans
    ((workerRun_step_ok _ tbl 0 _ _ hstep2).trans rfl), ?_, ?_, ?_⟩
  · simp [RedisTaskQueue.publish_result, Store.rpush, Store.expire,
      hk1q, hk2q, hk12, Ne.symm hk12, hr1, hr2]
  · simp [RedisTaskQueue.publish_result, Store.rpush, Store.expire,
      hk1q, hk2q, hk12, Ne.symm hk12, hr1, hr2]
  · simp [RedisTaskQueue.publish_result, Store.rpush, Store.expire,
      hk1q, hk2q, hk12, Ne.symm hk12, hr1, hr2]

theorem C4_unknown_job_type_witness :
    t4a.job_id = .str "job-4a" ∧
    t4a.job_type = .str "mystery" ∧
    t3b.job_id = .str "job-3b" ∧
    ("job-4a" : String) ≠ "job-3b" ∧
    List.lookup "mystery" tblC = none ∧
    s4.lists defaultQueue.queue_key = [taskToJson t4a, taskToJson t3b] ∧
    lookupHandler tblC t3b.job_type = some (fun _ => .ok [("reply", .str "done")]) ∧
    (fun (_ : QueueTask) => (.ok [("reply", .str "done")] : Except String (List (String × Json)))) t3b = .ok [("reply", .str "done")] ∧
    s4.lists (defaultQueue.result_key "job-4a") = [] ∧
    s4.lists (defaultQueue.result_key "job-3b") = [] ∧
    (∃ s2, defaultQueue.workerRun tblC 2 s4 = .ok s2 ∧
      s2.lists (defaultQueue.result_key "job-4a") =
        [.obj [("status", .str "error"),
               ("error", .str ("unknown job_type " ++ pySquote ++ "mystery" ++ pySquote))]] ∧
      s2.ttls (defaultQueue.result_key "job-4a") = some t4a.result_ttl ∧
      s2.lists (defaultQueue.result_key "job-3b") =
        [.obj (pyDictUpdate [("status", .str "ok")] [("reply", .str "done")])]) :=
  ⟨rfl, rfl, rfl, by decide, rfl, rfl, rfl, rfl, rfl, rfl,
   C4_unknown_job_type tblC "mystery" t4a t3b "job-4a" "job-3b"
     (fun _ => .ok [("reply", .str "done")]) [("reply", .str "done")] s4
     rfl rfl rfl (by decide) rfl rfl rfl rfl rfl rfl⟩


/-- C6: evaluation of the gateway at the exact success wire shape the
worker publishes for a safe classification,
`\x7bstatus: "ok", verdict: \x7bverdict: "safe", categories: []\x7d\x7d`.
The worker run does publish exactly that object and the waiter receives
it, but the gateway then DOES perform the flagged-message side effect:
`verdict.get("verdict", "safe")` is the nested verdict dict, whose `str()`
is never `"safe"`, so the not-safe branch fires on a safe verdict. -/
theorem C6_gateway_flags_safe_verdict :
    (defaultQueue.wait_for_result c6StoreAfterWorker "job-6").1 = .ok safeWire ∧
    safetyResultActions safeWire = [.sendFlagReport safeWire] ∧
    (queueMessageSafety defaultQueue .ok c6StoreAfterWorker "job-6" "hello"
      .null .null .null .null).1 = [.sendFlagReport safeWire] ∧
    (GatewayAction.sendFlagReport safeWire).userVisible = true :=
  ⟨rfl, by rfl, by rfl, rfl⟩

/-- C9: when `enqueue` or `wait_for_result` fails with a connectivity error
or the wait times out, both gateway request tasks log the failure and do
nothing else: the single resulting action is a log line (never a reply,
never a report), the enqueue is not re-attempted (on a wait-side failure
the queue has grown by exactly the one job record), and log lines are not
user-visible. -/
theorem C9_gateway_failures_are_silent (q : RedisTaskQueue) (s : Store)
    (job_id content prompt msg : String)
    (g c a rb un gn gi ui ci cc au : Json) (rtm : Bool)
    (hc : content ≠ "") (hp : prompt ≠ "")
    (hkq : q.result_key job_id ≠ q.queue_key)
    (hr : s.lists (q.result_key job_id) = []) :
    queueMessageSafety q (.atEnqueue msg) s job_id content g c a rb =
      ([.logLine ("Safety scan failed: " ++ msg)], s) ∧
    (queueMessageSafety q (.atWait msg) s job_id content g c a rb).1 =
      [.logLine ("Safety scan failed: " ++ msg)] ∧
    (queueMessageSafety q .ok s job_id content g c a rb).1 =
      [.logLine ("Safety scan timed out for job " ++ job_id)] ∧
    queueLlmReply q (.atEnqueue msg) s job_id prompt un gn gi ui ci cc au rb rtm =
      ([.logLine ("LLM reply failed: " ++ msg)], s) ∧
    (queueLlmReply q (.atWait msg) s job_id prompt un gn gi ui ci cc au rb rtm).1 =
      [.logLine ("LLM reply failed: " ++ msg)] ∧
    (queueLlmReply q .ok s job_id prompt un gn gi ui ci cc au rb rtm).1 =
      [.logLine ("LLM reply timed out for job " ++ job_id)] ∧
    (queueMessageSafety q .ok s job_id content g c a rb).2.lists q.queue_key =
      s.lists q.queue_key ++
        [taskToJson ⟨.str job_id, .str "safety_scan",
          .obj [("content", .str content), ("guild_id", g),
                ("channel_id", c), ("author_id", a)], rb, 90⟩] ∧
    (∀ m2 : String, (GatewayAction.logLine m2).userVisible = false) := by
  refine ⟨?_, ?_, ?_, ?_, ?_, ?_, ?_, fun _ => rfl⟩
  · simp [queueMessageSafety, hc]
  · simp [queueMessageSafety, hc]
  · simp [queueMessageSafety, hc, RedisTaskQueue.enqueue,
      RedisTaskQueue.wait_for_result, Store.blpop, Store.rpush, pyStr,
      hkq, hr]
  · simp [queueLlmReply, hp]
  · simp [queueLlmReply, hp]
  · simp [queueLlmReply, hp, RedisTaskQueue.enqueue,
      RedisTaskQueue.wait_for_result, Store.blpop, Store.rpush, pyStr,
      hkq, hr]
  · simp [queueMessageSafety, hc, RedisTaskQueue.enqueue,
      RedisTaskQueue.wait_for_result, Store.blpop, Store.rpush, pyStr,
      hkq, hr]

theorem C9_gateway_failures_are_silent_witness :
    ("hi" : String) ≠ "" ∧
    ("ping" : String) ≠ "" ∧
    defaultQueue.result_key "job-9" ≠ defaultQueue.queue_key ∧
    Store.empty.lists (defaultQueue.result_key "job-9") = [] ∧
    (queueMessageSafety defaultQueue (.atEnqueue "connection refused")
        Store.empty "job-9" "hi" .null .null .null .null =
      ([.logLine ("Safety scan failed: " ++ "connection refused")], Store.empty) ∧
     (queueMessageSafety defaultQueue (.atWait "connection refused")
        Store.empty "job-9" "hi" .null .null .null .null).1 =
      [.logLine ("Safety scan failed: " ++ "connection refused")] ∧
     (queueMessageSafety defaultQueue .ok
        Store.empty "job-9" "hi" .null .null .null .null).1 =
      [.logLine ("Safety scan timed out for job " ++ "job-9")] ∧
     queueLlmReply defaultQueue (.atEnqueue "connection refused")
        Store.empty "job-9" "ping" .null .null .null .null .null .null .null .null false =
      ([.logLine ("LLM reply failed: " ++ "connection refused")], Store.empty) ∧
     (queueLlmReply defaultQueue (.atWait "connection refused")
        Store.empty "job-9" "ping" .null .null .null .null .null .null .null .null false).1 =
      [.logLine ("LLM reply failed: " ++ "connection refused")] ∧
     (queueLlmReply defaultQueue .ok
        Store.empty "job-9" "ping" .null .null .null .null .null .null .null .null false).1 =
      [.logLine ("LLM reply timed out for job " ++ "job-9")] ∧
     (queueMessageSafety defaultQueue .ok
        Store.empty "job-9" "hi" .null .null .null .null).2.lists defaultQueue.queue_key =
      Store.empty.lists defaultQueue.queue_key ++
        [taskToJson ⟨.str "job-9", .str "safety_scan",
          .obj [("content", .str "hi"), ("guild_id", .null),
                ("channel_id", .null), ("author_id", .null)], .null, 90⟩] ∧
     (∀ m2 : String, (GatewayAction.logLine m2).userVisible = false)) :=
  ⟨by decide, by decide, default_result_key_ne_queue "job-9", rfl,
   C9_gateway_failures_are_silent defaultQueue Store.empty "job-9" "hi" "ping"
     "connection refused" .null .null .null .null .null .null .null .null
     .null .null .null false (by decide) (by decide)
     (default_result_key_ne_queue "job-9") rfl⟩

/-- C10 (counterexample to the claim as stated): this queue record contains
both `job_id` and `job_type`, yet `pop` raises (`int(None)` is a
`TypeError`) instead of returning a Job. -/
theorem C10_counterexample_ttl_null :
    (Json.getField (.obj [("job_id", .str "a"), ("job_type", .str "b"),
        ("result_ttl", .null)]) "job_id").isSome = true ∧
    (Json.getField (.obj [("job_id", .str "a"), ("job_type", .str "b"),
        ("result_ttl", .null)]) "job_type").isSome = true ∧
    (defaultQueue.pop (Store.empty.rpush defaultQueue.queue_key
        (.obj [("job_id", .str "a"), ("job_type", .str "b"),
               ("result_ttl", .null)]))).1 =
      .error (.typeError "int() argument must be a string or a number") :=
  ⟨rfl, rfl, rfl⟩

/-- C10 (amended): for every serialized queue record that contains `job_id`
and `job_type` and whose `result_ttl`, when present, is int-convertible,
`pop` returns a Job in which a missing `payload` defaults to the empty
mapping, a missing `requested_by` defaults to `None` and a missing
`result_ttl` defaults to 120; a record missing `job_id` or `job_type`
makes `pop` raise rather than return a Job. -/
theorem C10_pop_field_defaults (rec : Json) (s : Store)
    (hq : s.lists defaultQueue.queue_key = [rec]) :
    (∀ (fields : List (String × Json)) (jid jty : Json),
      rec = .obj fields →
      lookupField fields "job_id" = some jid →
      lookupField fields "job_type" = some jty →
      (lookupField fields "result_ttl" = none ∨
        ∃ n, pyInt ((lookupField fields "result_ttl").getD (.num 120)) = .ok n) →
      ∃ t : QueueTask, (defaultQueue.pop s).1 = .ok (some t) ∧
        t.job_id = jid ∧ t.job_type = jty ∧
        (lookupField fields "payload" = none → t.payload = .obj []) ∧
        (lookupField fields "requested_by" = none → t.requested_by = .null) ∧
        (lookupField fields "result_ttl" = none → t.result_ttl = 120)) ∧
    (∀ fields : List (String × Json), rec = .obj fields →
      (lookupField fields "job_id" = none ∨ lookupField fields "job_type" = none) →
      ∃ e, (defaultQueue.pop s).1 = .error e) := by
  constructor
  · rintro fields jid jty rfl h1 h2 httl
    have hparse : ∃ ttl, parseQueueTask (.obj fields) =
        .ok ⟨jid, jty, (lookupField fields "payload").getD (.obj []),
             (lookupField fields "requested_by").getD .null, ttl⟩ ∧
        (lookupField fields "result_ttl" = none → ttl = 120) := by
      rcases httl with hnone | ⟨n, hn⟩
      · refine ⟨120, ?_, fun _ => rfl⟩
        simp [parseQueueTask, h1, h2, hnone, pyInt]
      · refine ⟨n, ?_, ?_⟩
        · simp [parseQueueTask, h1, h2, hn]
        · intro hnone
          rw [hnone] at hn
          simp [pyInt] at hn
          omega
    obtain ⟨ttl, hparse, httl120⟩ := hparse
    refine ⟨⟨jid, jty, (lookupField fields "payload").getD (.obj []),
      (lookupField fields "requested_by").getD .null, ttl⟩, ?_, rfl, rfl,
      ?_, ?_, httl120⟩
    · rw [pop_parse_ok defaultQueue s (.obj fields) [] _ hq hparse]
    · intro h
      show (lookupField fields "payload").getD (.obj []) = .obj []
      simp [h]
    · intro h
      show (lookupField fields "requested_by").getD .null = .null
      simp [h]
  · rintro fields rfl hmiss
    rcases hmiss with h1 | h2
    · exact ⟨.keyError "job_id",
        by simp [RedisTaskQueue.pop, Store.blpop, hq, parseQueueTask, h1]⟩
    · rcases hj : lookupField fields "job_id" with _ | v
      · exact ⟨.keyError "job_id",
          by simp [RedisTaskQueue.pop, Store.blpop, hq, parseQueueTask, hj]⟩
      · exact ⟨.keyError "job_type",
          by simp [RedisTaskQueue.pop, Store.blpop, hq, parseQueueTask, hj, h2]⟩

theorem C10_pop_field_defaults_witness :
    (Store.empty.rpush defaultQueue.queue_key
        (.obj [("job_id", .str "w"), ("job_type", .str "wt")])).lists
        defaultQueue.queue_key =
      [.obj [("job_id", .str "w"), ("job_type", .str "wt")]] ∧
    (∃ t : QueueTask,
      (defaultQueue.pop (Store.empty.rpush defaultQueue.queue_key
        (.obj [("job_id", .str "w"), ("job_type", .str "wt")]))).1 =
        .ok (some t) ∧
      t.job_id = .str "w" ∧ t.job_type = .str "wt" ∧
      (lookupField [("job_id", Json.str "w"), ("job_type", Json.str "wt")]
        "payload" = none → t.payload = .obj []) ∧
      (lookupField [("job_id", Json.str "w"), ("job_type", Json.str "wt")]
        "requested_by" = none → t.requested_by = .null) ∧
      (lookupField [("job_id", Json.str "w"), ("job_type", Json.str "wt")]
        "result_ttl" = none → t.result_ttl = 120)) ∧
    (∃ e, (defaultQueue.pop (Store.empty.rpush defaultQueue.queue_key
        (.obj []))).1 = .error e) :=
  ⟨rfl,
   (C10_pop_field_defaults (.obj [("job_id", .str "w"), ("job_type", .str "wt")])
      (Store.empty.rpush defaultQueue.queue_key
        (.obj [("job_id", .str "w"), ("job_type", .str "wt")])) rfl).1
     [("job_id", .str "w"), ("job_type", .str "wt")]
     (.str "w") (.str "wt") rfl rfl rfl (Or.inl rfl),
   (C10_pop_field_defaults (.obj [])
      (Store.empty.rpush defaultQueue.queue_key (.obj [])) rfl).2
     [] rfl (Or.inl rfl)⟩
